import Mathlib

/-!
Shallow embedding of the AWRR (Autonomous Workflow Recovery Runtime) core:
the world state and fault injector (`src/state.py`, `src/mock_api.py`), the
learning memory bank (`src/learning.py`), the tool executor and baseline
runner (`src/baselines.py`), and the oracle (`src/oracle_checker.py`).

Modelling conventions:
* Python dicts are association lists (`List (String × _)`); dict assignment
  keeps the position of an existing key and appends a new one.
* Records and attribute maps are modelled as string-keyed string maps; their
  internal JSON structure is irrelevant to the verified claims.
* The seeded Bernoulli decision `rng.random() < prob` of the fault injector
  is an explicit `draw : Bool` oracle argument (the MD5-seeded RNG is
  deterministic but not arithmetically modelled).
* Wall-clock time, sleeps and latencies are modelling artefacts (spec §9
  "Cooperative suspension"): the elapsed-time budget axis never exhausts in
  the model, latencies are 0, and audit timestamps are dropped (an audit
  entry is represented by its `action` tag plus an opaque detail string).
* SHA-256 content hashing (`WorldState.compute_hash`) is modelled by an
  injective-enough concrete encoding of exactly the fields Python hashes
  (`records`, `inventory`, `audit_log`); the claims depend only on the hash
  being a deterministic function of those three fields.
* Raised Python exceptions that are not converted into a `StepResult`
  (e.g. the unknown-tool `ValueError`) are `Except.error`.
-/

namespace AWRR

/-- One audit-log entry (a Python dict); only its `action` tag is ever
inspected by the code (rollback counting), the rest is opaque detail.
Wall-clock timestamps are dropped. -/
structure AuditEntry where
  action : String
  detail : String := ""
deriving Repr, DecidableEq

/-- Attribute map of a record (`record` dicts in `state.py`). -/
abbrev AttrMap := List (String × String)

/-- Source `WorldState.records` : record-id → attribute map. -/
abbrev Records := List (String × AttrMap)

/-- Source `WorldState.inventory` : item-id → count. -/
abbrev Inventory := List (String × Int)

/-- Per-fault bookkeeping for `stateful_conflict` mode
(`world_state.fault_state[fault_id]` in `mock_api.py`). -/
structure ConflictState where
  planned : Option Bool := none
  active : Bool := false
  resolved : Bool := false
  rollback_seen : Nat := 0
deriving Repr, DecidableEq

/-- Source `state.WorldState`: three hashed mappings plus the fault-injection
bookkeeping fields (`fault_log` is a Python set, modelled as a
duplicate-free-by-construction list). -/
structure WorldState where
  records : Records
  inventory : Inventory
  audit_log : List AuditEntry
  fault_log : List String := []
  fault_plan : List (String × Bool) := []
  fault_state : List (String × ConflictState) := []
deriving Repr, DecidableEq

/-- Python dict assignment `d[k] = v`: overwrite in place, else append. -/
def updateAssoc {α : Type} (l : List (String × α)) (k : String) (v : α) :
    List (String × α) :=
  if (l.lookup k).isSome then
    l.map (fun p => if p.1 = k then (k, v) else p)
  else l ++ [(k, v)]

def encodeAttrMap (m : AttrMap) : String :=
  String.intercalate "," (m.map fun p => p.1 ++ ":" ++ p.2)

def encodeRecords (r : Records) : String :=
  String.intercalate ";" (r.map fun p => p.1 ++ "=" ++ encodeAttrMap p.2)

def encodeInventory (inv : Inventory) : String :=
  String.intercalate ";" (inv.map fun p => p.1 ++ "=" ++ toString p.2)

def encodeAudit (log : List AuditEntry) : String :=
  String.intercalate ";" (log.map fun a => a.action ++ "/" ++ a.detail)

/-- Source `WorldState.compute_hash`: SHA-256 over the JSON of `to_dict()`, i.e. a
deterministic function of exactly `records`, `inventory`, `audit_log`
(the fault bookkeeping fields are *not* part of `to_dict`). -/
def WorldState.compute_hash (ws : WorldState) : String :=
  "sha256:" ++ encodeRecords ws.records ++ "#" ++ encodeInventory ws.inventory
    ++ "#" ++ encodeAudit ws.audit_log

/-- A fault-injection config from a task's `fault_injections` list, with the
defaults `mock_api.should_inject` reads via `.get`. -/
structure FaultConfig where
  step_idx : Nat
  fault_type : String
  fault_id : String := "unknown"
  mode : String := "once"
  layer_override : Option String := none
  scenario : Option String := none
  force_first_attempt : Bool := false
deriving Repr, DecidableEq

/-- The descriptor `should_inject` returns when a fault fires. -/
structure FaultDescriptor where
  fault_type : String
  fault_id : String
  layer_gt : String
  task_id : String
  scenario : Option String
deriving Repr, DecidableEq

/-- Source `FaultInjector.FAULT_TYPE_TO_LAYER` (ground-truth kind→layer table). -/
def FAULT_TYPE_TO_LAYER : List (String × String) :=
  [("Timeout", "transient"),
   ("HTTP_500", "transient"),
   ("Conflict", "cascade"),
   ("StateCorruption", "cascade"),
   ("AuthDenied", "persistent"),
   ("PolicyRejected", "semantic"),
   ("BadRequest", "semantic"),
   ("NotFound", "persistent")]

/-- Source `fault_config.get("layer_override") or FAULT_TYPE_TO_LAYER.get(t, dflt)`
(Python `or`: a `None` or empty-string override falls through). -/
def layerGT (cfg : FaultConfig) (dflt : String) : String :=
  match cfg.layer_override with
  | some s => if s = "" then (FAULT_TYPE_TO_LAYER.lookup cfg.fault_type).getD dflt else s
  | none => (FAULT_TYPE_TO_LAYER.lookup cfg.fault_type).getD dflt

def mkDescriptor (cfg : FaultConfig) (task_id : String) (layerDflt : String) :
    FaultDescriptor :=
  { fault_type := cfg.fault_type
    fault_id := cfg.fault_id
    layer_gt := layerGT cfg layerDflt
    task_id := task_id
    scenario := cfg.scenario }

/-- Source `sum(1 for a in world_state.audit_log if a.get("action") == "rollback")`. -/
def rollbackCount (log : List AuditEntry) : Nat :=
  (log.filter (fun a => a.action = "rollback")).length

/-- Body of the `stateful_conflict` branch of `should_inject`, acting on the
per-fault `ConflictState` (fetched from / written back to
`world_state.fault_state`); `draw` is the seeded `rng.random() < prob`. -/
def conflictCall (cfg : FaultConfig) (task_id : String) (st : ConflictState)
    (rbCount : Nat) (attempt_idx : Nat) (draw : Bool) :
    ConflictState × Option FaultDescriptor :=
  -- If active but a rollback has happened since activation -> clear
  let st1 := if st.active ∧ rbCount > st.rollback_seen then
      { st with active := false, resolved := true, rollback_seen := rbCount }
    else st
  let st2 := if st1.planned = none then
      (if cfg.force_first_attempt ∧ attempt_idx = 0 then
        { st1 with planned := some true }
      else { st1 with planned := some draw })
    else st1
  -- Activate only if planned and not yet resolved.
  let st3 := if ¬st2.active ∧ st2.planned = some true ∧ ¬st2.resolved then
      { st2 with active := true, rollback_seen := rbCount }
    else st2
  if st3.active then (st3, some (mkDescriptor cfg task_id "cascade"))
  else (st3, none)

/-- Source `FaultInjector.should_inject`: pure state-passing version of the Python
staticmethod (which mutates `world_state` in place). -/
def shouldInject (fault_config : Option FaultConfig) (step_idx : Nat)
    (task_id : String) (ws : WorldState) (attempt_idx : Nat) (draw : Bool) :
    Option FaultDescriptor × WorldState :=
  match fault_config with
  | none => (none, ws)
  | some cfg =>
    if cfg.step_idx ≠ step_idx then (none, ws)
    else if cfg.mode = "once" then
      if cfg.fault_id ∈ ws.fault_log then (none, ws)
      else
        let ws1 := if (ws.fault_plan.lookup cfg.fault_id) = none then
            { ws with fault_plan := updateAssoc ws.fault_plan cfg.fault_id draw }
          else ws
        if (ws1.fault_plan.lookup cfg.fault_id).getD false then
          (some (mkDescriptor cfg task_id "persistent"),
           { ws1 with fault_log := ws1.fault_log ++ [cfg.fault_id] })
        else (none, ws1)
    else if cfg.mode = "per_attempt" then
      if draw then (some (mkDescriptor cfg task_id "persistent"), ws)
      else (none, ws)
    else if cfg.mode = "persistent" then
      let ws1 := if (ws.fault_plan.lookup cfg.fault_id) = none then
          { ws with fault_plan := updateAssoc ws.fault_plan cfg.fault_id draw }
        else ws
      if (ws1.fault_plan.lookup cfg.fault_id).getD false then
        (some (mkDescriptor cfg task_id "persistent"), ws1)
      else (none, ws1)
    else if cfg.mode = "stateful_conflict" then
      -- state = world_state.fault_state.setdefault(fault_id, {...})
      let st := (ws.fault_state.lookup cfg.fault_id).getD {}
      let r := conflictCall cfg task_id st (rollbackCount ws.audit_log)
        attempt_idx draw
      (r.2, { ws with fault_state := updateAssoc ws.fault_state cfg.fault_id r.1 })
    else (none, ws)

/-! ## Step context and result (`src/state.py`) -/

/-- Remaining-budget snapshot handed to `StepContext` (`budget_remaining`
dict); the wall-time axis is a modelling artefact and is dropped. -/
structure BudgetRemaining where
  tokens : Int
  tool_calls : Int
deriving Repr, DecidableEq

/-- Source `state.StepContext` (the `params` dict is carried by the Python class but
never inspected by the modelled code paths, so it is dropped here). -/
structure StepContext where
  task_id : String
  step_idx : Nat
  step_name : String
  tool_name : String
  state_hash : String
  budget_remaining : BudgetRemaining
deriving Repr, DecidableEq

/-- Source `state.StepResult` (`latency_ms` is wall-clock and dropped; `output`
payloads are opaque). -/
structure StepResult where
  status : String
  output : Option String
  error_type : Option String
  error_msg : Option String
  error_trace : Option String
  injected_fault : Option FaultDescriptor
deriving Repr, DecidableEq

/-! ## Learning: fault signatures and the memory bank (`src/learning.py`) -/

/-- Source `learning._extract_keywords`: lowercase, split into `[A-Za-z0-9_]+` runs,
drop tokens of length ≤ 2, count frequencies (first-occurrence order), sort
by (descending count, ascending token), take the first `k`. -/
def extract_keywords (text : String) (k : Nat := 5) : List String :=
  let tokens := ((text.toLower).split
    (fun c => !(c.isAlphanum || c = '_'))).filter (fun t => t ≠ "")
  let tokens := tokens.filter (fun t => t.length > 2)
  let freq : List (String × Nat) :=
    tokens.foldl (fun f t => updateAssoc f t (((f.lookup t).getD 0) + 1)) []
  let sorted := freq.mergeSort
    (fun a b => decide (a.2 > b.2 ∨ (a.2 = b.2 ∧ a.1 ≤ b.1)))
  (sorted.take k).map Prod.fst

/-- Source `learning.FaultSignature`; also reused for the `entry["signature"]`
dicts stored inside memory-bank entries (same five fields). -/
structure FaultSignature where
  tool_name : String
  error_type : String
  step_name : String
  topK_error_keywords : List String
  state_hash_prefix : String
deriving Repr, DecidableEq

/-- Source `FaultSignature.from_failure`. -/
def FaultSignature.from_failure (step_context : StepContext)
    (step_result : StepResult) (top_k : Nat := 5) : FaultSignature :=
  let error_text := String.intercalate " "
    (List.filter (fun s => s ≠ "")
      [(step_result.error_msg).getD "", (step_result.error_trace).getD ""])
  { tool_name := step_context.tool_name
    error_type := (step_result.error_type).getD "Unknown"
    step_name := step_context.step_name
    topK_error_keywords := extract_keywords error_text top_k
    state_hash_prefix := (step_context.state_hash).take 10 }

/-- Source `FaultSignature.to_key`. -/
def FaultSignature.to_key (s : FaultSignature) : String :=
  s.tool_name ++ "|" ++ s.error_type ++ "|" ++ s.step_name ++ "|"
    ++ FaultSignature.state_hash_prefix s ++ "|"
    ++ String.intercalate "," s.topK_error_keywords

/-- Source `{action, keywords}` snippet kept in an entry's `examples` list. -/
structure MemoryExample where
  action : String
  keywords : List String
deriving Repr, DecidableEq

/-- A memory-bank entry (`entry` dict in `learning.MemoryBank`); the
`stats` dict's two counters are inlined as `success`/`total`. -/
structure MemoryEntry where
  signature : FaultSignature
  action : String
  success : Nat
  total : Nat
  examples : List MemoryExample
deriving Repr, DecidableEq

/-- Source `MemoryBank.entries`: signature-key → entry, insertion-ordered. -/
abbrev MemoryBankEntries := List (String × MemoryEntry)

/-- The fresh entry `upsert` creates when the key is absent (stats start at
zero, no examples). -/
def freshEntry (signature : FaultSignature) (best_action : String) :
    MemoryEntry :=
  { signature := signature, action := best_action, success := 0, total := 0
    examples := [] }

/-- Source `MemoryBank.upsert` (the trailing `save()` is file persistence and out
of the model). -/
def MemoryBank.upsert (entries : MemoryBankEntries)
    (signature : FaultSignature) (best_action : String) (success : Bool) :
    MemoryBankEntries :=
  let key := FaultSignature.to_key signature
  let entry := (entries.lookup key).getD (freshEntry signature best_action)
  let entry := { entry with
    action := best_action
    total := entry.total + 1
    success := entry.success + (if success then 1 else 0) }
  let ex : MemoryExample :=
    { action := best_action, keywords := signature.topK_error_keywords }
  let entry := if entry.examples.length < 5 then
      { entry with examples := entry.examples ++ [ex] }
    else entry
  updateAssoc entries key entry

/-- Source `len(A ∩ B) / (len(A ∪ B) or 1)` over keyword sets. -/
def jaccardQ (a b : List String) : ℚ :=
  let inter := (a.toFinset ∩ b.toFinset).card
  let uni := (a.toFinset ∪ b.toFinset).card
  (inter : ℚ) / (if uni = 0 then 1 else (uni : ℚ))

/-- Source `MemoryBank._similarity`. -/
def MemoryBank.similarity (sig : FaultSignature) (stored : FaultSignature) : ℚ :=
  (if sig.tool_name = stored.tool_name then 3/10 else 0)
    + (if sig.error_type = stored.error_type then 3/10 else 0)
    + (if sig.step_name = stored.step_name then 2/10 else 0)
    + (2/10) * jaccardQ sig.topK_error_keywords stored.topK_error_keywords
    + (if FaultSignature.state_hash_prefix sig
          = FaultSignature.state_hash_prefix stored then 1/10 else 0)

/-- Loop accumulator of `MemoryBank.query` (`best_key`, `best_score`,
`best_action`). -/
structure QueryAcc where
  best_key : Option String
  best_score : ℚ
  best_action : Option String
deriving Repr, DecidableEq

/-- One iteration of the `query` scan: strict improvement updates. -/
def queryStep (sig : FaultSignature) (acc : QueryAcc)
    (p : String × MemoryEntry) : QueryAcc :=
  let score := MemoryBank.similarity sig p.2.signature
  if score > acc.best_score then
    { best_key := some p.1, best_score := score, best_action := some p.2.action }
  else acc

/-- Source `success/total if total else 0.0`, as recomputed inside `query`. -/
def successRate (e : MemoryEntry) : ℚ :=
  if e.total = 0 then 0 else (e.success : ℚ) / (e.total : ℚ)

/-- Source `MemoryBank.query`: returns `(action, confidence, matched_key)`. -/
def MemoryBank.query (entries : MemoryBankEntries)
    (signature : FaultSignature) : Option String × ℚ × Option String :=
  if entries = [] then (none, 0, none)
  else
    let acc := entries.foldl (queryStep signature) ⟨none, -1, none⟩
    match acc.best_key with
    | none => (none, 0, none)
    | some best_key =>
      -- stats = self.entries[best_key]["stats"]; key is always present
      let e := (entries.lookup best_key).getD
        ⟨signature, "", 0, 0, []⟩
      let confidence : ℚ :=
        max 0 (min 1 (acc.best_score * (7/10) + successRate e * (3/10)))
      (acc.best_action, confidence, some best_key)


/-! ## Tools and the execution envelope (`src/mock_api.py`) -/

/-- Parameters of one tool call, one constructor per registry tool
(`params` dict of a task step; `policy_check`'s `context` dict is
represented by its only read key, `required_inventory`). -/
inductive ToolParams
  | get_record (record_id : String)
  | auth_check (record_id : String)
  | policy_check (action : String) (required_inventory : List (String × Int))
  | update_record (record_id : String) (patch : AttrMap)
  | send_message (user_id : String) (text : String)
  | notify_user (record_id : String)
  | create_ticket (summary : String) (severity : String)
  | commit
  | rollback (checkpoint : WorldState)
  | lock_inventory (item_id : String) (qty : Int)
  | unlock_inventory (item_id : String) (qty : Int)
  | process_payment (order_id : String) (amount : Int)
  | refund_payment (order_id : String) (amount : Int)
  | write_audit (record_id : String)
deriving Repr, DecidableEq

/-- Canonical per-kind error messages of `_execute_tool`. -/
def errorMessages (fault_type : String) : String :=
  if fault_type = "Timeout" then "Request timeout after 30s"
  else if fault_type = "HTTP_500" then "Internal server error"
  else if fault_type = "BadRequest" then "Invalid request parameters"
  else if fault_type = "AuthDenied" then "Authentication denied"
  else if fault_type = "NotFound" then "Resource not found"
  else if fault_type = "Conflict" then "Resource conflict detected"
  else if fault_type = "PolicyRejected" then "Policy violation detected"
  else if fault_type = "StateCorruption" then "State corruption detected"
  else "Unknown error"

/-- Inner per-tool closures (`_get`, `_check`, `_update`, …): `.error msg`
models a raised `ValueError(msg)`. Every raise in the source occurs before
any state mutation, so the error branches return the input state. -/
def runToolOp (params : ToolParams) (ws : WorldState) :
    WorldState × Except String (Option String) :=
  match params with
  | .get_record rid =>
    if (ws.records.lookup rid).isSome then (ws, .ok (some "record"))
    else (ws, .error ("Record " ++ rid ++ " not found"))
  | .auth_check rid =>
    if (ws.records.lookup rid).isSome then (ws, .ok (some "authorized"))
    else (ws, .error "Record not found")
  | .policy_check act required_inventory =>
    match required_inventory.find?
        (fun p => ((ws.inventory.lookup p.1).getD 0) < p.2) with
    | some p => (ws, .error ("Insufficient inventory: " ++ p.1))
    | none => (ws, .ok (some ("allowed:" ++ act)))
  | .update_record rid patch =>
    match ws.records.lookup rid with
    | none => (ws, .error ("Record " ++ rid ++ " not found"))
    | some attrs =>
      let attrs := patch.foldl (fun m p => updateAssoc m p.1 p.2) attrs
      ({ ws with records := updateAssoc ws.records rid attrs
                 audit_log := ws.audit_log
                   ++ [{ action := "update_record", detail := rid }] },
       .ok (some "updated"))
  | .send_message uid text =>
    ({ ws with audit_log := ws.audit_log
         ++ [{ action := "send_message", detail := uid ++ ":" ++ text }] },
     .ok (some "sent"))
  | .notify_user rid =>
    ({ ws with audit_log := ws.audit_log
         ++ [{ action := "notify_user", detail := rid }] },
     .ok (some "notified"))
  | .create_ticket summary severity =>
    let ticket_id := "TKT-" ++ toString ws.audit_log.length
    ({ ws with audit_log := ws.audit_log
         ++ [{ action := "create_ticket",
               detail := ticket_id ++ ":" ++ summary ++ ":" ++ severity }] },
     .ok (some ticket_id))
  | .commit =>
    ({ ws with audit_log := ws.audit_log ++ [{ action := "commit" }] },
     .ok (some "committed"))
  | .rollback checkpoint =>
    ({ ws with records := checkpoint.records
               inventory := checkpoint.inventory
               audit_log := checkpoint.audit_log
                 ++ [{ action := "rollback" }] },
     .ok (some "rolled_back"))
  | .lock_inventory item qty =>
    let available := (ws.inventory.lookup item).getD 0
    if available < qty then (ws, .error ("Insufficient inventory for " ++ item))
    else ({ ws with inventory := updateAssoc ws.inventory item (available - qty)
                    audit_log := ws.audit_log
                      ++ [{ action := "lock_inventory", detail := item }] },
          .ok (some "locked"))
  | .unlock_inventory item qty =>
    ({ ws with inventory := updateAssoc ws.inventory item
                              (((ws.inventory.lookup item).getD 0) + qty)
               audit_log := ws.audit_log
                 ++ [{ action := "unlock_inventory", detail := item }] },
     .ok (some "unlocked"))
  | .process_payment oid amt =>
    let ws := if (ws.records.lookup oid).isSome then
        { ws with records := updateAssoc ws.records oid
                    (updateAssoc (updateAssoc ((ws.records.lookup oid).getD [])
                      "payment_status" "paid") "amount" (toString amt)) }
      else ws
    ({ ws with audit_log := ws.audit_log
         ++ [{ action := "process_payment", detail := oid }] },
     .ok (some "paid"))
  | .refund_payment oid amt =>
    let ws := if (ws.records.lookup oid).isSome then
        { ws with records := updateAssoc ws.records oid
                    (updateAssoc (updateAssoc ((ws.records.lookup oid).getD [])
                      "payment_status" "refunded") "refund_amount" (toString amt)) }
      else ws
    ({ ws with audit_log := ws.audit_log
         ++ [{ action := "refund_payment", detail := oid }] },
     .ok (some "refunded"))
  | .write_audit rid =>
    ({ ws with audit_log := ws.audit_log
         ++ [{ action := "write_audit", detail := rid }] },
     .ok (some "written"))

/-- Source `mock_api._execute_tool`: inject a synthesised error result, or
run the tool and convert a raise into a generic `RuntimeError` result
(latency measurement dropped). -/
def executeTool (ws : WorldState) (params : ToolParams)
    (fault_injection : Option FaultDescriptor) : StepResult × WorldState :=
  match fault_injection with
  | some fi =>
    ({ status := "error", output := none
       error_type := some fi.fault_type
       error_msg := some (errorMessages fi.fault_type)
       error_trace := some ("Injected fault: " ++ fi.fault_type)
       injected_fault := some fi }, ws)
  | none =>
    let r := runToolOp params ws
    match r.2 with
    | .ok out =>
      ({ status := "ok", output := out, error_type := none, error_msg := none
         error_trace := none, injected_fault := none }, r.1)
    | .error e =>
      ({ status := "error", output := none, error_type := some "RuntimeError"
         error_msg := some e, error_trace := some e
         injected_fault := none }, r.1)

/-- Keys of the `tool_map` registry in `BaselineRunner._execute_step`. -/
def toolRegistryNames : List String :=
  ["get_record", "auth_check", "policy_check", "update_record",
   "send_message", "notify_user", "create_ticket", "commit", "rollback",
   "lock_inventory", "unlock_inventory", "process_payment",
   "refund_payment", "write_audit"]

/-- Source `BaselineRunner._execute_step`: an unknown tool name raises
`ValueError("Unknown tool: …")`, modelled as `Except.error`; tasks pair
`tool_name` with matching `params` (a mismatch would be a Python
`TypeError`, also a crash, not separately modelled). -/
def executeStep (ws : WorldState) (tool_name : String) (params : ToolParams)
    (fault_injection : Option FaultDescriptor) :
    Except String (StepResult × WorldState) :=
  if toolRegistryNames.contains tool_name then
    .ok (executeTool ws params fault_injection)
  else .error ("Unknown tool: " ++ tool_name)

/-! ## Recovery policy (`src/baselines.py`) -/

/-- Update of a retry-counts dict entry (`Nat`-keyed association list). -/
def updateRetryAssoc (l : List (Nat × Nat)) (k : Nat) (v : Nat) :
    List (Nat × Nat) :=
  if (l.lookup k).isSome then
    l.map (fun p => if p.1 = k then (k, v) else p)
  else l ++ [(k, v)]

/-- Output of the diagnosis agent (`diagnosis.DiagnosisAgent.diagnose`);
the agent itself is deterministic source code but enters the verified
core only through this record, so it is treated as an oracle input
(`reasoning` text dropped). -/
structure Diagnosis where
  layer : String
  action : String
  confidence : ℚ
deriving Repr, DecidableEq

/-- Source `RecoveryDecision` (the diagnostic `payload` dict is metadata
only and is not modelled). -/
structure RecoveryDecision where
  action : String
  source : String
deriving Repr, DecidableEq

/-- Source `BaselineRunner._get_recovery_action_b2`. -/
def getRecoveryActionB2 (result : StepResult) (step_idx : Nat)
    (retry_counts : List (Nat × Nat)) : String :=
  let error_type := result.error_type
  let current_retries := (retry_counts.lookup step_idx).getD 0
  if error_type = some "Timeout" ∨ error_type = some "HTTP_500" then
    if current_retries < 3 then "retry" else "escalate"
  else if error_type = some "Conflict" then
    if current_retries < 3 then "rollback" else "escalate"
  else if error_type = some "PolicyRejected" ∨ error_type = some "AuthDenied" then
    "escalate"
  else "escalate"

/-- Truthiness-plus-threshold test of the guard's first branch:
`step_context and step_context.budget_remaining.get("tool_calls", 0) <= 1`. -/
def budgetToolCallsLow (step_context : Option StepContext) : Bool :=
  match step_context with
  | some ctx => ctx.budget_remaining.tool_calls ≤ 1
  | none => false

/-- Source `BaselineRunner._apply_safety_guard`. -/
def applySafetyGuard (action : String) (current_retries : Nat)
    (step_context : Option StepContext) : String :=
  if budgetToolCallsLow step_context ∧ (action = "retry" ∨ action = "rollback") then
    "escalate"
  else if (action = "retry" ∨ action = "rollback") ∧ current_retries ≥ 3 then
    "escalate"
  else action

/-- Source `BaselineRunner._low_confidence_fallback_action`. -/
def lowConfidenceFallbackAction (error_type : Option String)
    (b2_action : String) (current_retries : Nat)
    (step_context : Option StepContext) : String :=
  if error_type = some "NotFound" ∧ step_context.isSome then
    if current_retries < 2 then "retry" else b2_action
  else b2_action

/-- Trace event (`state.TraceEvent`), restricted to the fields the
verified claims inspect; budget snapshots, latencies and timestamps
are dropped. -/
structure TraceEvent where
  task_id : String
  step_idx : Nat
  step_name : String
  tool_name : String
  status : String
  error_type : Option String := none
  attempt_idx : Nat := 0
  event_type : String := "tool_call"
  recovery_action : Option String := none
  final_outcome : Option String := none
  final_reason : Option String := none
deriving Repr, DecidableEq

/-- Source `BaselineRunner._get_recovery_action`. `diag` stands for the
value of `self.diagnosis_agent.diagnose(step_context, result,
history_events)`; `memory_bank` is `self.memory_bank`. -/
def getRecoveryAction (mode : String)
    (memory_bank : Option MemoryBankEntries) (memory_threshold : ℚ)
    (diag : Diagnosis) (result : StepResult) (step_idx : Nat)
    (retry_counts : List (Nat × Nat)) (step_context : Option StepContext)
    (history_events : Option (List TraceEvent))
    (fault_signature : Option FaultSignature) : RecoveryDecision :=
  let error_type := result.error_type
  let current_retries := (retry_counts.lookup step_idx).getD 0
  let b2_action := getRecoveryActionB2 result step_idx retry_counts
  if mode = "B0" then ⟨"fail", "rule"⟩
  else if mode = "B1" then
    ⟨if current_retries < 3 then "retry" else "fail", "rule"⟩
  else if mode = "B2" then ⟨b2_action, "rule"⟩
  else if mode = "B3" then
    if step_context = none ∨ history_events = none then ⟨b2_action, "rule"⟩
    else
      let action := if diag.confidence < 7/10 then
          lowConfidenceFallbackAction error_type b2_action current_retries
            step_context
        else diag.action
      ⟨applySafetyGuard action current_retries step_context, "diagnosis"⟩
  else if mode = "B4" then
    if step_context = none ∨ history_events = none then ⟨b2_action, "rule"⟩
    else
      let memHit : Option String :=
        match memory_bank, fault_signature with
        | some bank, some sig =>
          let q := MemoryBank.query bank sig
          match q.1 with
          | some mem_action =>
            -- Python truthiness: `if mem_action and mem_conf >= threshold`
            if mem_action ≠ "" ∧ q.2.1 ≥ memory_threshold then some mem_action
            else none
          | none => none
        | _, _ => none
      match memHit with
      | some mem_action =>
        ⟨applySafetyGuard mem_action current_retries step_context, "memory"⟩
      | none =>
        let action := if diag.confidence < 7/10 then
            lowConfidenceFallbackAction error_type b2_action current_retries
              step_context
          else diag.action
        ⟨applySafetyGuard action current_retries step_context, "diagnosis"⟩
  else ⟨"fail", "rule"⟩

/-! ## The baseline runner (`BaselineRunner.run_task` and `run`) -/

/-- Success condition of a task (`oracle_checker.check_success` reads only
the `record_status` shape). -/
structure SuccessCondition where
  type : String
  record_id : String
  expected_status : String
deriving Repr, DecidableEq

/-- Source `oracle_checker.check_success`. -/
def checkSuccess (ws : WorldState) (cond : Option SuccessCondition) : Bool :=
  match cond with
  | some c =>
    if c.type = "record_status" then
      match ws.records.lookup c.record_id with
      | some attrs => (attrs.lookup "status") == some c.expected_status
      | none => false
    else false
  | none => false

/-- One plan step of a task. -/
structure TaskStep where
  step_name : String
  tool_name : String
  params : ToolParams
deriving Repr, DecidableEq

/-- A task record from the task file (§6 of the spec). -/
structure Task where
  task_id : String
  initial_records : Records
  initial_inventory : Inventory
  initial_audit_log : List AuditEntry
  steps : List TaskStep
  fault_injections : List FaultConfig
  success_condition : Option SuccessCondition
deriving Repr, DecidableEq

/-- Source `state.Budget` plus the tracker counters; the wall-time axis is a
modelling artefact (virtual clock, never exhausts). -/
structure Budget where
  max_tokens : Int
  max_tool_calls : Int
  used_tokens : Int := 0
  used_tool_calls : Int := 0
deriving Repr, DecidableEq

/-- Source `BudgetTracker.is_exhausted` (tokens and tool-call axes; the time
axis never trips under the virtual clock). -/
def Budget.isExhausted (b : Budget) : Bool :=
  b.max_tokens - b.used_tokens ≤ 0 ∨ b.max_tool_calls - b.used_tool_calls ≤ 0

/-- Crude stand-in for `len(json.dumps(params)) // 4`; no verified claim
depends on token-estimate values, only on their consumption. -/
def estimateTokens (p : ToolParams) : Int :=
  ((reprStr p).length : Int) / 4

/-- Source `BaselineRunner._escalate_human`: files a critical ticket via
`mock_api.create_ticket` (which appends an audit entry). -/
def escalateHuman (mode : String) (task_id : String) (step_idx : Nat)
    (reason : String) (ws : WorldState) : WorldState :=
  let summary := "[" ++ mode ++ "] Task " ++ task_id ++ " escalated at step "
    ++ toString step_idx ++ ": " ++ reason
  let ticket_id := "TKT-" ++ toString ws.audit_log.length
  { ws with audit_log := ws.audit_log
      ++ [{ action := "create_ticket"
            detail := ticket_id ++ ":" ++ summary ++ ":critical" }] }

/-- Source `BaselineRunner._append_final_event` (restricted to modelled
fields). -/
def appendFinalEvent (task_id : String) (step_idx : Nat)
    (final_outcome : String) (reason : Option String)
    (events : List TraceEvent) : List TraceEvent :=
  events ++ [{ task_id := task_id, step_idx := step_idx, step_name := "final"
               tool_name := "final", status := "final", event_type := "final"
               final_outcome := some final_outcome, final_reason := reason }]

/-- State reset enacted by the `rollback` / `rollback_then_retry` branches of
`run_task` (lines 245–264 of `baselines.py`, both branches identical):
deep-copy the checkpoint's `records`, `inventory` and `audit_log` (with one
appended rollback entry) into the live state; the fault bookkeeping fields
of the live state are not assigned. -/
def enactRollback (ws checkpoint : WorldState) : WorldState :=
  { ws with records := checkpoint.records
            inventory := checkpoint.inventory
            audit_log := checkpoint.audit_log ++ [{ action := "rollback" }] }

/-- Return of the task summary dict of `run_task`. -/
structure TaskResult where
  task_id : String
  status : String
  reason : Option String := none
  steps_executed : Option Nat := none
deriving Repr, DecidableEq

/-- Outcome of dispatching one recovery action inside `run_task`'s error
branch: terminate the task or resume the loop. -/
inductive FailureStep
  | terminate (ws : WorldState) (events : List TraceEvent) (res : TaskResult)
  | resume (ws : WorldState) (retry_counts : List (Nat × Nat))
      (events : List TraceEvent)
deriving Repr, DecidableEq

/-- Bump of `retry_counts[step_idx] = retry_counts.get(step_idx, 0) + 1`. -/
def bumpRetry (rc : List (Nat × Nat)) (step_idx : Nat) : List (Nat × Nat) :=
  updateRetryAssoc rc step_idx (((rc.lookup step_idx).getD 0) + 1)

/-- Dispatch on the decided recovery action — the `if action == …` chain of
`run_task` (baselines.py lines 227–270). An action matching no branch
falls back to the loop top unchanged (Python `while` continues with the
same attempt index). -/
def dispatchFailure (mode : String) (task_id : String) (step_idx : Nat)
    (action : String) (result : StepResult) (ws checkpoint : WorldState)
    (retry_counts : List (Nat × Nat)) (events : List TraceEvent) :
    FailureStep :=
  if action = "fail" then
    .terminate ws
      (appendFinalEvent task_id step_idx "failed" result.error_type events)
      { task_id := task_id, status := "failed", reason := result.error_type }
  else if action = "escalate" then
    let ws1 := escalateHuman mode task_id step_idx
      ((result.error_type).getD "None") ws
    .terminate ws1
      (appendFinalEvent task_id step_idx "escalated" result.error_type events)
      { task_id := task_id, status := "escalated", reason := result.error_type }
  else if action = "retry" then
    .resume ws (bumpRetry retry_counts step_idx) events
  else if action = "rollback_then_retry" then
    .resume (enactRollback ws checkpoint) (bumpRetry retry_counts step_idx)
      events
  else if action = "rollback" then
    .resume (enactRollback ws checkpoint) (bumpRetry retry_counts step_idx)
      events
  else if action = "compensate" then
    -- B3 may return compensate; treated as escalate, but the final reason
    -- is the literal "compensate_needed"
    let ws1 := escalateHuman mode task_id step_idx
      ((result.error_type).getD "None") ws
    .terminate ws1
      (appendFinalEvent task_id step_idx "escalated"
        (some "compensate_needed") events)
      { task_id := task_id, status := "escalated"
        reason := some "compensate_needed" }
  else .resume ws retry_counts events

/-- Everything `run_task` returns or leaves behind. -/
structure RunOutcome where
  result : TaskResult
  ws : WorldState
  events : List TraceEvent
  memory_bank : Option MemoryBankEntries
deriving Repr, DecidableEq

set_option linter.unusedVariables false in
/-- Loop of `BaselineRunner.run_task`, fuel-indexed. `diagOracle` stands
for the deterministic diagnosis agent, `drawOracle (fault_id, attempt)`
for the seeded Bernoulli draw of the injector. An `Except.error` is an
uncaught Python exception propagating out of `run_task`. The binding
`state_hash_pre` mirrors the source's dead variable of the same name
(baselines.py line 135) and is likewise unused. -/
def runTaskLoop (mode : String) (memory_threshold : ℚ)
    (diagOracle : StepContext → StepResult → List TraceEvent → Diagnosis)
    (drawOracle : String → Nat → Bool) (task : Task) :
    Nat → WorldState → WorldState → Budget → List (Nat × Nat) →
    Option FaultSignature → Option String → Option MemoryBankEntries →
    List TraceEvent → Nat → Except String RunOutcome
  | 0, _, _, _, _, _, _, _, _, _ => .error "out_of_fuel"
  | Nat.succ fuel, ws, checkpoint, budget, retry_counts,
      first_failure_signature, first_failure_action, memory_bank, events,
      step_idx =>
    if h : step_idx < task.steps.length then
      if budget.isExhausted then
        let ws1 := escalateHuman mode task.task_id step_idx "budget_exhausted" ws
        .ok { result := { task_id := task.task_id, status := "escalated"
                          reason := some "budget_exhausted" }
              ws := ws1
              events := appendFinalEvent task.task_id step_idx "escalated"
                (some "budget_exhausted") events
              memory_bank := memory_bank }
      else
        let step := task.steps.get ⟨step_idx, h⟩
        let attempt_idx := (retry_counts.lookup step_idx).getD 0
        let state_hash_pre := WorldState.compute_hash ws
        -- first matching fault config (the for-loop breaks at the first hit)
        let fi := task.fault_injections.find? (fun f => f.step_idx == step_idx)
        let inj := shouldInject fi step_idx task.task_id ws attempt_idx
          (drawOracle (match fi with | some f => f.fault_id | none => "")
            attempt_idx)
        match executeStep inj.2 step.tool_name step.params inj.1 with
        | .error e => .error e
        | .ok (result, ws2) =>
          let state_hash := WorldState.compute_hash ws2
          let step_context : StepContext :=
            { task_id := task.task_id, step_idx := step_idx
              step_name := step.step_name, tool_name := step.tool_name
              state_hash := state_hash
              budget_remaining :=
                { tokens := budget.max_tokens - budget.used_tokens
                  tool_calls := budget.max_tool_calls - budget.used_tool_calls } }
          let event : TraceEvent :=
            { task_id := task.task_id, step_idx := step_idx
              step_name := step.step_name, tool_name := step.tool_name
              status := result.status, error_type := result.error_type
              attempt_idx := attempt_idx, event_type := "tool_call" }
          let budget1 := { budget with
            used_tokens := budget.used_tokens + estimateTokens step.params
            used_tool_calls := budget.used_tool_calls + 1 }
          if result.status = "ok" then
            runTaskLoop mode memory_threshold diagOracle drawOracle task fuel
              ws2 ws2 budget1 (updateRetryAssoc retry_counts step_idx 0)
              first_failure_signature first_failure_action memory_bank
              (events ++ [event]) (step_idx + 1)
          else
            let fault_signature := FaultSignature.from_failure step_context result
            let ffs := match first_failure_signature with
              | none => some fault_signature
              | some s => some s
            let decision := getRecoveryAction mode memory_bank
              memory_threshold (diagOracle step_context result events) result
              step_idx retry_counts (some step_context) (some events)
              (some fault_signature)
            let recovery_label := if mode = "B4"
                ∧ (decision.source = "memory" ∨ decision.source = "diagnosis")
              then decision.source ++ ":" ++ decision.action
              else decision.action
            let events1 := events
              ++ [{ event with recovery_action := some recovery_label }]
            let ffa := match first_failure_action with
              | none => some decision.action
              | some a => some a
            match dispatchFailure mode task.task_id step_idx decision.action
                result ws2 checkpoint retry_counts events1 with
            | .terminate wsT evT res =>
              .ok { result := res, ws := wsT, events := evT
                    memory_bank := memory_bank }
            | .resume wsR rcR evR =>
              runTaskLoop mode memory_threshold diagOracle drawOracle task fuel
                wsR checkpoint budget1 rcR ffs ffa memory_bank evR step_idx
    else
      let success := checkSuccess ws task.success_condition
      let memory_bank1 := if mode = "B4" then
          match memory_bank, first_failure_signature, first_failure_action with
          | some bank, some sig, some act =>
            some (MemoryBank.upsert bank sig act success)
          | _, _, _ => memory_bank
        else memory_bank
      let final_outcome := if success then "success" else "failed"
      .ok { result := { task_id := task.task_id
                        status := final_outcome
                        steps_executed := some task.steps.length }
            ws := ws
            events := appendFinalEvent task.task_id (task.steps.length - 1)
              final_outcome none events
            memory_bank := memory_bank1 }

/-- Source `BaselineRunner.run_task`: initial world state from the task's
snapshot, fresh budget (10000 tokens, 50 tool calls, 60 s), checkpoint =
deep copy of the initial state, then the loop. -/
def runTask (mode : String) (memory_threshold : ℚ)
    (diagOracle : StepContext → StepResult → List TraceEvent → Diagnosis)
    (drawOracle : String → Nat → Bool) (task : Task)
    (memory_bank : Option MemoryBankEntries) (fuel : Nat) :
    Except String RunOutcome :=
  let ws : WorldState :=
    { records := task.initial_records, inventory := task.initial_inventory
      audit_log := task.initial_audit_log }
  runTaskLoop mode memory_threshold diagOracle drawOracle task fuel ws ws
    { max_tokens := 10000, max_tool_calls := 50 } [] none none memory_bank [] 0

/-- Source `baselines.run`: runs the tasks in sequence; an exception from
`run_task` (e.g. the unknown-tool `ValueError`) is not caught and aborts
the whole run. -/
def runAll (mode : String) (memory_threshold : ℚ)
    (diagOracle : StepContext → StepResult → List TraceEvent → Diagnosis)
    (drawOracle : String → Nat → Bool) (tasks : List Task)
    (memory_bank : Option MemoryBankEntries) (fuel : Nat) :
    Except String (List TaskResult) :=
  match tasks with
  | [] => .ok []
  | t :: ts =>
    match runTask mode memory_threshold diagOracle drawOracle t memory_bank
        fuel with
    | .error e => .error e
    | .ok out =>
      match runAll mode memory_threshold diagOracle drawOracle ts
          out.memory_bank fuel with
      | .error e => .error e
      | .ok rs => .ok (out.result :: rs)

/-! ## Call sequences against the injector (for the temporal claims)

Between two `should_inject` calls the runner may freely rewrite the
hashed part of the world state (tool effects, checkpoint restores), but it
never touches the fault bookkeeping fields. A call supplies the fault
config consulted, the environment-chosen hashed fields, the attempt index
and the Bernoulli draw. -/

/-- One later call to the injector, with the environment state at call time. -/
structure InjectorCall where
  cfg : FaultConfig
  records : Records := []
  inventory : Inventory := []
  audit_log : List AuditEntry := []
  attempt_idx : Nat := 0
  draw : Bool := false
deriving Repr, DecidableEq

/-- Environment rewrite of the hashed fields before a call (tool effects
and rollbacks never touch the fault bookkeeping). -/
def setEnv (ws : WorldState) (c : InjectorCall) : WorldState :=
  { ws with records := c.records, inventory := c.inventory
            audit_log := c.audit_log }

/-- Threads a sequence of injector calls through the world state,
collecting each call's firing decision. -/
def injectorRun (step_idx : Nat) (task_id : String) :
    WorldState → List InjectorCall →
    WorldState × List (Option FaultDescriptor)
  | ws, [] => (ws, [])
  | ws, c :: cs =>
    let r := shouldInject (some c.cfg) step_idx task_id (setEnv ws c)
      c.attempt_idx c.draw
    let rest := injectorRun step_idx task_id r.2 cs
    (rest.1, r.1 :: rest.2)

/-- The per-fault state of `fid` in `ws` is resolved and inactive (the
post-clearing invariant of `stateful_conflict`). -/
def conflictResolvedAt (ws : WorldState) (fid : String) : Prop :=
  ((ws.fault_state.lookup fid).getD {}).resolved = true
  ∧ ((ws.fault_state.lookup fid).getD {}).active = false

/-- Invariant of the `query` scan: the accumulator is either untouched (no
entry processed) or holds the key, action and score of some processed
entry whose score bounds every processed entry's score. -/
def QueryInv (sig : FaultSignature) (processed : MemoryBankEntries)
    (acc : QueryAcc) : Prop :=
  (processed = [] ∧ acc = ⟨none, -1, none⟩)
  ∨ ∃ k e, (k, e) ∈ processed ∧ acc.best_key = some k
      ∧ acc.best_action = some e.action
      ∧ acc.best_score = MemoryBank.similarity sig e.signature
      ∧ ∀ p ∈ processed,
          MemoryBank.similarity sig p.2.signature ≤ acc.best_score

/-! ## Concrete instances for counterexamples and witnesses -/

/-- The empty world state used by concrete witnesses (as in the unit tests). -/
def emptyWS : WorldState :=
  { records := [], inventory := [], audit_log := [] }

def cfgTimeoutOnce : FaultConfig :=
  { step_idx := 1, fault_type := "Timeout", fault_id := "F-001" }

def cfgAuthOnce : FaultConfig :=
  { step_idx := 1, fault_type := "AuthDenied", fault_id := "F-A" }

def cfgConflictStateful : FaultConfig :=
  { step_idx := 2, fault_type := "Conflict", fault_id := "F-C1"
    mode := "stateful_conflict" }

/-- A synthesised Timeout failure result (what `_execute_tool` produces for
an injected Timeout). -/
def resultTimeoutCE : StepResult :=
  { status := "error", output := none, error_type := some "Timeout"
    error_msg := some "Request timeout after 30s"
    error_trace := some "Injected fault: Timeout", injected_fault := none }

/-- A synthesised Conflict failure result. -/
def resultConflictCE : StepResult :=
  { status := "error", output := none, error_type := some "Conflict"
    error_msg := some "Resource conflict detected"
    error_trace := some "Injected fault: Conflict", injected_fault := none }

/-- A step context whose remaining tool-call budget is exactly 1. -/
def ctxBudget1 : StepContext :=
  { task_id := "T-CE", step_idx := 0, step_name := "fetch"
    tool_name := "get_record", state_hash := "sha256:h"
    budget_remaining := { tokens := 5000, tool_calls := 1 } }

/-- A step context with plenty of remaining budget. -/
def ctxBudget40 : StepContext :=
  { task_id := "T-CE", step_idx := 0, step_name := "fetch"
    tool_name := "get_record", state_hash := "sha256:h"
    budget_remaining := { tokens := 5000, tool_calls := 40 } }

/-- A fixed low-confidence retry diagnosis. -/
def diagLowRetry : Diagnosis :=
  { layer := "transient", action := "retry", confidence := 1/2 }

/-- Constant diagnosis oracle used by concrete runs. -/
def diagRetry : StepContext → StepResult → List TraceEvent → Diagnosis :=
  fun _ _ _ => diagLowRetry

/-- Draw oracle that never samples a fault in. -/
def drawNever : String → Nat → Bool := fun _ _ => false

/-- A one-step task whose only step names a tool missing from the registry. -/
def taskUnknownTool : Task :=
  { task_id := "T-UNK"
    initial_records := [("REC1", [("status", "new")])]
    initial_inventory := []
    initial_audit_log := []
    steps := [{ step_name := "launch", tool_name := "fly_rocket"
                params := ToolParams.get_record "REC1" }]
    fault_injections := []
    success_condition := none }

/-- A world state in which the once-mode fault `F-001` has already fired. -/
def wsFiredOnce : WorldState :=
  { records := [("REC1", [("status", "new")])]
    inventory := [("item", 3)]
    audit_log := [{ action := "commit" }]
    fault_log := ["F-001"]
    fault_plan := [("F-001", true)] }

/-- A throwaway descriptor used as a `getD` default in witnesses. -/
def dummyDesc : FaultDescriptor :=
  { fault_type := "Timeout", fault_id := "F-X", layer_gt := "transient"
    task_id := "T", scenario := none }

/-- The world state right after `F-001` fired in once mode on `emptyWS`. -/
def wsAfterFire : WorldState :=
  { records := [], inventory := [], audit_log := []
    fault_log := ["F-001"], fault_plan := [("F-001", true)] }

/-- Two later once-mode calls for `F-001`, the second after a rollback. -/
def callsOnceCE : List InjectorCall :=
  [{ cfg := cfgTimeoutOnce, attempt_idx := 1, draw := true },
   { cfg := cfgTimeoutOnce, audit_log := [{ action := "rollback" }]
     attempt_idx := 2, draw := true }]

/-- A state whose stateful-conflict fault `F-C1` is active (activation saw
zero rollbacks) while the audit log now holds one rollback entry. -/
def wsConflictActive : WorldState :=
  { records := [], inventory := []
    audit_log := [{ action := "rollback" }]
    fault_state := [("F-C1",
      { planned := some true, active := true, resolved := false
        rollback_seen := 0 })] }

/-- Two later stateful-conflict calls for `F-C1`. -/
def callsConflictCE : List InjectorCall :=
  [{ cfg := cfgConflictStateful, audit_log := [{ action := "rollback" }]
     attempt_idx := 2, draw := true },
   { cfg := cfgConflictStateful, attempt_idx := 3, draw := true }]

/-- The RuntimeError result of `get_record` on a missing record (no fault
injected). -/
def resultNotFoundCE : StepResult :=
  { status := "error", output := none, error_type := some "RuntimeError"
    error_msg := some "Record R404 not found"
    error_trace := some "Record R404 not found", injected_fault := none }

/-- A one-entry memory bank for the query witness. -/
def sigExample : FaultSignature :=
  { tool_name := "update_record", error_type := "Conflict"
    step_name := "update", topK_error_keywords := ["conflict", "resource"]
    state_hash_prefix := "sha256:abc" }

def entryExample : MemoryEntry :=
  { signature := sigExample, action := "rollback", success := 3, total := 4
    examples := [] }

def bankExample : MemoryBankEntries :=
  [(FaultSignature.to_key sigExample, entryExample)]

/-! ## Helper lemmas -/

theorem lookup_cons_self {κ α : Type} [BEq κ] [LawfulBEq κ]
    (t : List (κ × α)) (k : κ) (v : α) :
    List.lookup k ((k, v) :: t) = some v := by
  simp [List.lookup]

theorem lookup_cons_ne {κ α : Type} [BEq κ] [LawfulBEq κ]
    (t : List (κ × α)) (k pk : κ) (pv : α) (h : k ≠ pk) :
    List.lookup k ((pk, pv) :: t) = List.lookup k t := by
  have hb : (k == pk) = false := beq_eq_false_iff_ne.mpr h
  simp [List.lookup, hb]

theorem lookup_map_overwrite {α : Type} (l : List (String × α)) (k : String)
    (v : α) (h : (l.lookup k).isSome) :
    (l.map (fun p => if p.1 = k then (k, v) else p)).lookup k = some v := by
  induction l with
  | nil => simp [List.lookup] at h
  | cons p t ih =>
    rcases p with ⟨pk, pv⟩
    by_cases hk : k = pk
    · simp only [List.map_cons, if_pos hk.symm]
      exact lookup_cons_self _ _ _
    · have hpk : ¬(pk = k) := fun hc => hk hc.symm
      rw [lookup_cons_ne t k pk pv hk] at h
      simp only [List.map_cons, if_neg hpk]
      rw [lookup_cons_ne _ k pk pv hk]
      exact ih h

theorem lookup_append_single {α : Type} (l : List (String × α)) (k : String)
    (v : α) (h : l.lookup k = none) : (l ++ [(k, v)]).lookup k = some v := by
  induction l with
  | nil => exact lookup_cons_self [] k v
  | cons p t ih =>
    rcases p with ⟨pk, pv⟩
    by_cases hk : k = pk
    · subst hk
      rw [lookup_cons_self t k pv] at h
      exact absurd h (by simp)
    · rw [lookup_cons_ne t k pk pv hk] at h
      rw [List.cons_append, lookup_cons_ne _ k pk pv hk]
      exact ih h

theorem lookup_updateAssoc {α : Type} (l : List (String × α)) (k : String)
    (v : α) : (updateAssoc l k v).lookup k = some v := by
  unfold updateAssoc
  by_cases h : (l.lookup k).isSome
  · simpa [h] using lookup_map_overwrite l k v h
  · have hn : l.lookup k = none := Option.not_isSome_iff_eq_none.mp h
    simpa [h] using lookup_append_single l k v hn

theorem lookup_of_mem_nodup {α : Type} (l : List (String × α)) (k : String)
    (v : α) (hnd : (l.map Prod.fst).Nodup) (hm : (k, v) ∈ l) :
    l.lookup k = some v := by
  induction l with
  | nil => simp at hm
  | cons p t ih =>
    rcases p with ⟨pk, pv⟩
    simp only [List.map_cons, List.nodup_cons] at hnd
    rcases List.mem_cons.mp hm with hhead | htail
    · cases hhead
      exact lookup_cons_self _ _ _
    · have hk : k ≠ pk := by
        intro hc
        subst hc
        exact hnd.1 (List.mem_map.mpr ⟨(k, v), htail, rfl⟩)
      rw [lookup_cons_ne t k pk pv hk]
      exact ih hnd.2 htail

theorem jaccardQ_nonneg (a b : List String) : 0 ≤ jaccardQ a b := by
  unfold jaccardQ
  apply div_nonneg
  · positivity
  · split_ifs <;> positivity

theorem similarity_nonneg (sig stored : FaultSignature) :
    0 ≤ MemoryBank.similarity sig stored := by
  unfold MemoryBank.similarity
  have hj := jaccardQ_nonneg sig.topK_error_keywords stored.topK_error_keywords
  split_ifs <;> linarith

/-! ## C2 — default ground-truth layer of AuthDenied -/

theorem layerGT_authDenied (cfg : FaultConfig) (dflt : String)
    (hty : cfg.fault_type = "AuthDenied") (hov : cfg.layer_override = none) :
    layerGT cfg dflt = "persistent" := by
  unfold layerGT
  rw [hov, hty]
  rfl

theorem conflictCall_desc (cfg : FaultConfig) (task_id : String)
    (st : ConflictState) (rb a : Nat) (draw : Bool) (d : FaultDescriptor)
    (h : (conflictCall cfg task_id st rb a draw).2 = some d) :
    d = mkDescriptor cfg task_id "cascade" := by
  unfold conflictCall at h
  simp only at h
  split_ifs at h <;> simp_all

/-- C2 (counterexample): a firing `AuthDenied` fault with no layer override
carries ground-truth layer `"persistent"`, not `"semantic"` as claimed. -/
theorem C2_counterexample :
    ((shouldInject (some cfgAuthOnce) 1 "T-001" emptyWS 0 true).1.map
        FaultDescriptor.layer_gt) = some "persistent"
      ∧ (some "persistent" : Option String) ≠ some "semantic" := by
  constructor
  · rfl
  · decide

/-- C2 (amended): for every fault config with kind AuthDenied and no
ground-truth-layer override, when the injector fires (in any mode), the
returned descriptor's ground-truth layer is `"persistent"` — the default
kind-to-layer table maps AuthDenied to persistent. -/
theorem C2_theorem (cfg : FaultConfig) (step_idx : Nat) (task_id : String)
    (ws : WorldState) (attempt_idx : Nat) (draw : Bool) (d : FaultDescriptor)
    (hty : cfg.fault_type = "AuthDenied") (hov : cfg.layer_override = none)
    (hfire : (shouldInject (some cfg) step_idx task_id ws attempt_idx
      draw).1 = some d) :
    d.layer_gt = "persistent" := by
  have hP := layerGT_authDenied cfg "persistent" hty hov
  have hC := layerGT_authDenied cfg "cascade" hty hov
  simp only [shouldInject] at hfire
  split_ifs at hfire
  all_goals simp at hfire
  all_goals try (subst hfire; simpa [mkDescriptor] using hP)
  all_goals
    (have h2 := conflictCall_desc _ _ _ _ _ _ _ hfire
     subst h2
     simpa [mkDescriptor] using hC)

/-- C2 witness: the theorem applied at the concrete firing of
`cfgAuthOnce` on the empty world state. -/
theorem C2_witness :
    (mkDescriptor cfgAuthOnce "T-001" "persistent").layer_gt = "persistent" :=
  C2_theorem cfgAuthOnce 1 "T-001" emptyWS 0 true
    (mkDescriptor cfgAuthOnce "T-001" "persistent") rfl rfl rfl

/-! ## C9 — compensate versus escalate in the runner's dispatch -/

/-- C9 (counterexample): on a Conflict failure, dispatching `compensate`
produces a final reason of `"compensate_needed"`, not the step's error
kind — so the behaviour is *not* identical to `escalate`, whose final
reason is the error kind. -/
theorem C9_counterexample :
    (match dispatchFailure "B3" "T-CE" 1 "compensate" resultConflictCE
        emptyWS emptyWS [] [] with
      | FailureStep.terminate _ _ res => res.reason
      | _ => none) = some "compensate_needed"
    ∧ (match dispatchFailure "B3" "T-CE" 1 "escalate" resultConflictCE
        emptyWS emptyWS [] [] with
      | FailureStep.terminate _ _ res => res.reason
      | _ => none) = some "Conflict"
    ∧ (some "compensate_needed" : Option String) ≠ some "Conflict" := by
  refine ⟨rfl, rfl, ?_⟩
  decide

/-- C9 (amended): a `compensate` decision terminates the task exactly like
`escalate` — same escalation ticket (same world-state effect), outcome
`escalated`, a final event — except that the final reason (in both the
final event and the returned summary) is the fixed string
`"compensate_needed"` instead of the step's error kind. -/
theorem C9_theorem (mode task_id : String) (step_idx : Nat)
    (result : StepResult) (ws checkpoint : WorldState)
    (retry_counts : List (Nat × Nat)) (events : List TraceEvent) :
    dispatchFailure mode task_id step_idx "compensate" result ws checkpoint
        retry_counts events
      = FailureStep.terminate
          (escalateHuman mode task_id step_idx
            ((result.error_type).getD "None") ws)
          (appendFinalEvent task_id step_idx "escalated"
            (some "compensate_needed") events)
          { task_id := task_id, status := "escalated"
            reason := some "compensate_needed" }
    ∧ dispatchFailure mode task_id step_idx "escalate" result ws checkpoint
        retry_counts events
      = FailureStep.terminate
          (escalateHuman mode task_id step_idx
            ((result.error_type).getD "None") ws)
          (appendFinalEvent task_id step_idx "escalated" result.error_type
            events)
          { task_id := task_id, status := "escalated"
            reason := result.error_type } := by
  constructor
  · rfl
  · rfl

/-- C9 witness: the theorem applied at concrete inputs. -/
theorem C9_witness :
    dispatchFailure "B3" "T-W9" 0 "compensate" resultTimeoutCE emptyWS
        emptyWS [] []
      = FailureStep.terminate
          (escalateHuman "B3" "T-W9" 0 "Timeout" emptyWS)
          (appendFinalEvent "T-W9" 0 "escalated"
            (some "compensate_needed") [])
          { task_id := "T-W9", status := "escalated"
            reason := some "compensate_needed" } :=
  ( C9_theorem "B3" "T-W9" 0 resultTimeoutCE emptyWS emptyWS [] []).1

/-! ## C10 — rollback frame: fault bookkeeping survives a rollback -/

/-- C10: enacting a rollback replaces only `records`, `inventory` and
`audit_log` (restored from the checkpoint, one rollback entry appended);
`fault_log`, `fault_plan` and `fault_state` of the live state are
unchanged, so a once-mode fault already recorded in `fault_log` still
never fires after any rollback. -/
theorem C10_theorem (ws checkpoint : WorldState) (cfg : FaultConfig)
    (step_idx : Nat) (task_id : String) (attempt_idx : Nat) (draw : Bool)
    (hmode : cfg.mode = "once") (hfired : cfg.fault_id ∈ ws.fault_log) :
    (enactRollback ws checkpoint).records = checkpoint.records
    ∧ (enactRollback ws checkpoint).inventory = checkpoint.inventory
    ∧ (enactRollback ws checkpoint).audit_log
        = checkpoint.audit_log ++ [{ action := "rollback" }]
    ∧ (enactRollback ws checkpoint).fault_log = ws.fault_log
    ∧ (enactRollback ws checkpoint).fault_plan = ws.fault_plan
    ∧ (enactRollback ws checkpoint).fault_state = ws.fault_state
    ∧ shouldInject (some cfg) step_idx task_id (enactRollback ws checkpoint)
        attempt_idx draw = (none, enactRollback ws checkpoint) := by
  refine ⟨rfl, rfl, rfl, rfl, rfl, rfl, ?_⟩
  unfold shouldInject
  by_cases hstep : cfg.step_idx ≠ step_idx
  · simp [hstep]
  · simp [hstep, hmode, enactRollback, hfired]

/-- C10 witness: after a fired once-mode fault and a rollback on a concrete
state, the injector stays silent and the bookkeeping is intact. -/
theorem C10_witness :
    (enactRollback wsFiredOnce emptyWS).fault_log = wsFiredOnce.fault_log
    ∧ shouldInject (some cfgTimeoutOnce) 1 "T-001"
        (enactRollback wsFiredOnce emptyWS) 1 true
      = (none, enactRollback wsFiredOnce emptyWS) :=
  ⟨(C10_theorem wsFiredOnce emptyWS cfgTimeoutOnce 1 "T-001" 1 true rfl
      (by decide)).2.2.2.1,
   (C10_theorem wsFiredOnce emptyWS cfgTimeoutOnce 1 "T-001" 1 true rfl
      (by decide)).2.2.2.2.2.2⟩

/-! ## C1 — which strategies route decisions through the safety guard -/

theorem applySafetyGuard_safe (action : String) (current_retries : Nat)
    (ctx : StepContext)
    (htrig : ctx.budget_remaining.tool_calls ≤ 1 ∨ 3 ≤ current_retries) :
    applySafetyGuard action current_retries (some ctx) ≠ "retry"
    ∧ applySafetyGuard action current_retries (some ctx) ≠ "rollback" := by
  unfold applySafetyGuard
  split_ifs with h1 h2
  · constructor <;> decide
  · constructor <;> decide
  · by_cases ha : action = "retry" ∨ action = "rollback"
    · exfalso
      rcases htrig with hb | hr
      · exact h1 ⟨by simp [budgetToolCallsLow, hb], ha⟩
      · exact h2 ⟨ha, hr⟩
    · push_neg at ha
      exact ⟨ha.1, ha.2⟩

/-- C1 (counterexample): in strategy B1 with one remaining tool call (the
guard's budget trigger) and a fresh retry count, the decision is `retry`,
not the `escalate` the safety guard would force — B1 (like B2) never
routes its decision through `_apply_safety_guard`. -/
theorem C1_counterexample :
    (getRecoveryAction "B1" none (8/10) diagLowRetry resultTimeoutCE 0 []
        (some ctxBudget1) (some []) none).action = "retry"
    ∧ ctxBudget1.budget_remaining.tool_calls ≤ 1
    ∧ "retry" ≠ "escalate" := by
  refine ⟨rfl, by decide, by decide⟩

/-- C1 (amended): in strategies B3 and B4 (the diagnosis- and memory-driven
strategies), every recovery decision passes through the safety guard:
when the remaining tool-call budget is ≤ 1 or the step's retry count is
≥ 3, the returned action is never `retry` or `rollback` (a would-be
retry/rollback is upgraded to `escalate`). B1 and B2 return their rule's
action unguarded. -/
theorem C1_theorem (mode : String) (memory_bank : Option MemoryBankEntries)
    (memory_threshold : ℚ) (diag : Diagnosis) (result : StepResult)
    (step_idx : Nat) (retry_counts : List (Nat × Nat)) (ctx : StepContext)
    (history : List TraceEvent) (fault_signature : Option FaultSignature)
    (hmode : mode = "B3" ∨ mode = "B4")
    (htrig : ctx.budget_remaining.tool_calls ≤ 1
      ∨ 3 ≤ (retry_counts.lookup step_idx).getD 0) :
    (getRecoveryAction mode memory_bank memory_threshold diag result
        step_idx retry_counts (some ctx) (some history)
        fault_signature).action ≠ "retry"
    ∧ (getRecoveryAction mode memory_bank memory_threshold diag result
        step_idx retry_counts (some ctx) (some history)
        fault_signature).action ≠ "rollback" := by
  rcases hmode with rfl | rfl
  · simpa [getRecoveryAction] using
      applySafetyGuard_safe _ _ ctx htrig
  · cases memory_bank with
    | none =>
      simpa [getRecoveryAction] using
        applySafetyGuard_safe _ _ ctx htrig
    | some bank =>
      cases fault_signature with
      | none =>
        simpa [getRecoveryAction] using
          applySafetyGuard_safe _ _ ctx htrig
      | some sig =>
        rcases hq : (MemoryBank.query bank sig).1 with _ | a
        · simpa [getRecoveryAction, hq] using
            applySafetyGuard_safe _ _ ctx htrig
        · by_cases hcond : a ≠ "" ∧ (MemoryBank.query bank sig).2.1
              ≥ memory_threshold
          · simpa [getRecoveryAction, hq, hcond] using
              applySafetyGuard_safe _ _ ctx htrig
          · simpa [getRecoveryAction, hq, hcond] using
              applySafetyGuard_safe _ _ ctx htrig

/-- C1 witness: the amended theorem applied at a concrete B3 decision with
one remaining tool call. -/
theorem C1_witness :
    (getRecoveryAction "B3" none (8/10) diagLowRetry resultTimeoutCE 0 []
        (some ctxBudget1) (some []) none).action ≠ "retry"
    ∧ (getRecoveryAction "B3" none (8/10) diagLowRetry resultTimeoutCE 0 []
        (some ctxBudget1) (some []) none).action ≠ "rollback" :=
  C1_theorem "B3" none (8/10) diagLowRetry resultTimeoutCE 0 [] ctxBudget1 []
    none (Or.inl rfl) (Or.inl (by decide))

/-! ## C5 — upsert arithmetic -/

/-- C5: `upsert` sets the entry's stored action to the supplied action,
increments `total` by exactly 1, increments `success` by 1 iff the flag
is true (so on `success := false` the success count is unchanged), and
retains at most 5 examples (given the bank invariant that the stored
entry, if any, holds at most 5). -/
theorem C5_theorem (entries : MemoryBankEntries) (signature : FaultSignature)
    (best_action : String) (success : Bool)
    (hex : ∀ e, entries.lookup (FaultSignature.to_key signature) = some e →
      e.examples.length ≤ 5) :
    ∃ e', (MemoryBank.upsert entries signature best_action success).lookup
        (FaultSignature.to_key signature) = some e'
      ∧ e'.action = best_action
      ∧ e'.total = ((entries.lookup (FaultSignature.to_key signature)).getD
          (freshEntry signature best_action)).total + 1
      ∧ e'.success = ((entries.lookup (FaultSignature.to_key signature)).getD
          (freshEntry signature best_action)).success
          + (if success then 1 else 0)
      ∧ e'.examples.length ≤ 5 := by
  have hold : ((entries.lookup (FaultSignature.to_key signature)).getD
      (freshEntry signature best_action)).examples.length ≤ 5 := by
    rcases hl : entries.lookup (FaultSignature.to_key signature) with _ | e0
    · simp [freshEntry]
    · simpa using hex e0 hl
  simp only [MemoryBank.upsert]
  refine ⟨_, lookup_updateAssoc _ _ _, ?_, ?_, ?_, ?_⟩
  · split_ifs <;> rfl
  · split_ifs <;> rfl
  · split_ifs <;> rfl
  · split_ifs <;> (simp_all; try omega)

/-- C5 witness: an upsert with `success := false` into the empty bank yields
an entry with the supplied action, total 1, success 0, one example. -/
theorem C5_witness :
    (((MemoryBank.upsert [] sigExample "retry" false).lookup
        (FaultSignature.to_key sigExample)).getD
          (freshEntry sigExample "x")).action = "retry"
    ∧ (((MemoryBank.upsert [] sigExample "retry" false).lookup
        (FaultSignature.to_key sigExample)).getD
          (freshEntry sigExample "x")).total = 1
    ∧ (((MemoryBank.upsert [] sigExample "retry" false).lookup
        (FaultSignature.to_key sigExample)).getD
          (freshEntry sigExample "x")).success = 0
    ∧ (((MemoryBank.upsert [] sigExample "retry" false).lookup
        (FaultSignature.to_key sigExample)).getD
          (freshEntry sigExample "x")).examples.length ≤ 5 := by
  obtain ⟨e', h1, h2, h3, h4, h5⟩ :=
    C5_theorem [] sigExample "retry" false (fun _ he => nomatch he)
  refine ⟨?_, ?_, ?_, ?_⟩ <;> rw [h1] <;> simp_all [freshEntry]

/-! ## C4 — once-mode faults fire at most once -/

theorem shouldInject_once_fire_mem (cfg : FaultConfig) (step_idx : Nat)
    (task_id : String) (ws : WorldState) (a : Nat) (dr : Bool)
    (d : FaultDescriptor) (ws1 : WorldState)
    (hmode : cfg.mode = "once")
    (h : shouldInject (some cfg) step_idx task_id ws a dr = (some d, ws1)) :
    cfg.fault_id ∈ ws1.fault_log := by
  simp only [shouldInject] at h
  split_ifs at h <;> simp_all
  all_goals obtain ⟨-, rfl⟩ := h
  all_goals simp

theorem shouldInject_mem_none (cfg : FaultConfig) (step_idx : Nat)
    (task_id : String) (ws : WorldState) (a : Nat) (dr : Bool)
    (hmode : cfg.mode = "once") (hmem : cfg.fault_id ∈ ws.fault_log) :
    shouldInject (some cfg) step_idx task_id ws a dr = (none, ws) := by
  simp only [shouldInject]
  split_ifs <;> simp_all

theorem injectorRun_none_of_mem (step_idx : Nat) (task_id : String)
    (fid : String) :
    ∀ (calls : List InjectorCall) (ws : WorldState),
    fid ∈ ws.fault_log →
    (∀ c ∈ calls, c.cfg.fault_id = fid ∧ c.cfg.mode = "once") →
    ∀ o ∈ (injectorRun step_idx task_id ws calls).2, o = none
  | [], ws, hmem, hcalls => by simp [injectorRun]
  | c :: cs, ws, hmem, hcalls => by
    obtain ⟨hid, hm⟩ := hcalls c (by simp)
    have hmem' : c.cfg.fault_id ∈ (setEnv ws c).fault_log := by
      simpa [setEnv, hid] using hmem
    have hstep := shouldInject_mem_none c.cfg step_idx task_id (setEnv ws c)
      c.attempt_idx c.draw hm hmem'
    intro o ho
    simp only [injectorRun, hstep] at ho
    rcases List.mem_cons.mp ho with rfl | ho'
    · rfl
    · exact injectorRun_none_of_mem step_idx task_id fid cs (setEnv ws c)
        (by simpa [setEnv] using hmem)
        (fun c' hc' => hcalls c' (by simp [hc'])) o ho'

/-- C4: in mode `once`, after the injector fires for a fault id, every later
call for the same fault id (in mode once, with the hashed state rewritten
arbitrarily between calls) returns no fault. -/
theorem C4_theorem (cfg : FaultConfig) (step_idx : Nat) (task_id : String)
    (ws : WorldState) (attempt_idx : Nat) (draw : Bool) (d : FaultDescriptor)
    (ws1 : WorldState) (calls : List InjectorCall)
    (hmode : cfg.mode = "once")
    (hfire : shouldInject (some cfg) step_idx task_id ws attempt_idx draw
      = (some d, ws1))
    (hcalls : ∀ c ∈ calls, c.cfg.fault_id = cfg.fault_id
      ∧ c.cfg.mode = "once") :
    ∀ o ∈ (injectorRun step_idx task_id ws1 calls).2, o = none :=
  injectorRun_none_of_mem step_idx task_id cfg.fault_id calls ws1
    (shouldInject_once_fire_mem cfg step_idx task_id ws attempt_idx draw d
      ws1 hmode hfire) hcalls

/-- C4 witness: after the concrete firing of `F-001`, two further calls
(one after a rollback entry) both return no fault. -/
theorem C4_witness :
    (injectorRun 1 "T-001" wsAfterFire callsOnceCE).2.getD 0 (some dummyDesc)
      = none
    ∧ (injectorRun 1 "T-001" wsAfterFire callsOnceCE).2.getD 1
        (some dummyDesc) = none := by
  have h := C4_theorem cfgTimeoutOnce 1 "T-001" emptyWS 0 true
    (mkDescriptor cfgTimeoutOnce "T-001" "persistent") wsAfterFire callsOnceCE
    rfl rfl (by decide)
  exact ⟨h _ (by decide), h _ (by decide)⟩

/-! ## C3 — stateful-conflict clearing -/

theorem conflictCall_clear (cfg : FaultConfig) (task_id : String)
    (st : ConflictState) (rb a : Nat) (dr : Bool)
    (hact : st.active = true) (hobs : rb > st.rollback_seen) :
    (conflictCall cfg task_id st rb a dr).2 = none
    ∧ (conflictCall cfg task_id st rb a dr).1.resolved = true
    ∧ (conflictCall cfg task_id st rb a dr).1.active = false := by
  simp only [conflictCall]
  split_ifs <;> simp_all

theorem conflictCall_resolved (cfg : FaultConfig) (task_id : String)
    (st : ConflictState) (rb a : Nat) (dr : Bool)
    (hres : st.resolved = true) (hact : st.active = false) :
    (conflictCall cfg task_id st rb a dr).2 = none
    ∧ (conflictCall cfg task_id st rb a dr).1.resolved = true
    ∧ (conflictCall cfg task_id st rb a dr).1.active = false := by
  simp only [conflictCall]
  split_ifs <;> simp_all

theorem shouldInject_step_mismatch (cfg : FaultConfig) (step_idx : Nat)
    (task_id : String) (ws : WorldState) (a : Nat) (dr : Bool)
    (hstep : ¬cfg.step_idx = step_idx) :
    shouldInject (some cfg) step_idx task_id ws a dr = (none, ws) := by
  simp [shouldInject, hstep]

theorem shouldInject_stateful_eq (cfg : FaultConfig) (step_idx : Nat)
    (task_id : String) (ws : WorldState) (a : Nat) (dr : Bool)
    (hmode : cfg.mode = "stateful_conflict")
    (hstep : cfg.step_idx = step_idx) :
    shouldInject (some cfg) step_idx task_id ws a dr
      = ((conflictCall cfg task_id
            ((ws.fault_state.lookup cfg.fault_id).getD {})
            (rollbackCount ws.audit_log) a dr).2,
         { ws with fault_state := updateAssoc ws.fault_state cfg.fault_id
                     (conflictCall cfg task_id
                       ((ws.fault_state.lookup cfg.fault_id).getD {})
                       (rollbackCount ws.audit_log) a dr).1 }) := by
  simp [shouldInject, hstep, hmode]

theorem shouldInject_conflict_resolved (cfg : FaultConfig) (step_idx : Nat)
    (task_id : String) (ws : WorldState) (a : Nat) (dr : Bool)
    (hmode : cfg.mode = "stateful_conflict")
    (hres : conflictResolvedAt ws cfg.fault_id) :
    (shouldInject (some cfg) step_idx task_id ws a dr).1 = none
    ∧ conflictResolvedAt
        (shouldInject (some cfg) step_idx task_id ws a dr).2 cfg.fault_id := by
  obtain ⟨h1, h2⟩ := hres
  by_cases hstep : cfg.step_idx = step_idx
  · have hcc := conflictCall_resolved cfg task_id
      ((ws.fault_state.lookup cfg.fault_id).getD {})
      (rollbackCount ws.audit_log) a dr h1 h2
    rw [shouldInject_stateful_eq cfg step_idx task_id ws a dr hmode hstep]
    refine ⟨hcc.1, ?_, ?_⟩
    · simpa [conflictResolvedAt, lookup_updateAssoc] using hcc.2.1
    · simpa [conflictResolvedAt, lookup_updateAssoc] using hcc.2.2
  · rw [shouldInject_step_mismatch cfg step_idx task_id ws a dr hstep]
    exact ⟨rfl, ⟨h1, h2⟩⟩

theorem injectorRun_none_of_resolved (step_idx : Nat) (task_id : String)
    (fid : String) :
    ∀ (calls : List InjectorCall) (ws : WorldState),
    conflictResolvedAt ws fid →
    (∀ c ∈ calls, c.cfg.fault_id = fid
      ∧ c.cfg.mode = "stateful_conflict") →
    (∀ o ∈ (injectorRun step_idx task_id ws calls).2, o = none)
    ∧ conflictResolvedAt (injectorRun step_idx task_id ws calls).1 fid
  | [], ws, hres, hcalls => by simpa [injectorRun] using hres
  | c :: cs, ws, hres, hcalls => by
    obtain ⟨hid, hm⟩ := hcalls c (by simp)
    have hres' : conflictResolvedAt (setEnv ws c) c.cfg.fault_id := by
      rw [hid]
      exact hres
    have hstep := shouldInject_conflict_resolved c.cfg step_idx task_id
      (setEnv ws c) c.attempt_idx c.draw hm hres'
    have hrec := injectorRun_none_of_resolved step_idx task_id fid cs
      (shouldInject (some c.cfg) step_idx task_id (setEnv ws c) c.attempt_idx
        c.draw).2
      (hid ▸ hstep.2)
      (fun c' hc' => hcalls c' (by simp [hc']))
    constructor
    · intro o ho
      simp only [injectorRun] at ho
      rcases List.mem_cons.mp ho with rfl | ho'
      · exact hstep.1
      · exact hrec.1 o ho'
    · simpa only [injectorRun] using hrec.2

set_option linter.unusedVariables false in
/-- C3: in mode `stateful_conflict`, once a rollback entry is observed in the
audit log after the fault's activation (the rollback count exceeds the
count captured at activation, the fault being active and not yet
resolved), that call clears the fault — it returns no descriptor and
marks the per-fault state resolved — and every later call for that fault
id returns no descriptor, the state staying resolved. -/
theorem C3_theorem (cfg : FaultConfig) (task_id : String) (ws : WorldState)
    (a : Nat) (dr : Bool) (calls : List InjectorCall)
    (hmode : cfg.mode = "stateful_conflict")
    (hact : ((ws.fault_state.lookup cfg.fault_id).getD {}).active = true)
    (hnres : ((ws.fault_state.lookup cfg.fault_id).getD {}).resolved = false)
    (hobs : rollbackCount ws.audit_log
      > ((ws.fault_state.lookup cfg.fault_id).getD {}).rollback_seen)
    (hcalls : ∀ c ∈ calls, c.cfg.fault_id = cfg.fault_id
      ∧ c.cfg.mode = "stateful_conflict") :
    (shouldInject (some cfg) cfg.step_idx task_id ws a dr).1 = none
    ∧ conflictResolvedAt
        (shouldInject (some cfg) cfg.step_idx task_id ws a dr).2 cfg.fault_id
    ∧ ∀ o ∈ (injectorRun cfg.step_idx task_id
        (shouldInject (some cfg) cfg.step_idx task_id ws a dr).2 calls).2,
        o = none := by
  have hcc := conflictCall_clear cfg task_id
    ((ws.fault_state.lookup cfg.fault_id).getD {})
    (rollbackCount ws.audit_log) a dr hact hobs
  have heq := shouldInject_stateful_eq cfg cfg.step_idx task_id ws a dr
    hmode rfl
  have hfirst : (shouldInject (some cfg) cfg.step_idx task_id ws a dr).1
      = none := by
    rw [heq]
    exact hcc.1
  have hresolved : conflictResolvedAt
      (shouldInject (some cfg) cfg.step_idx task_id ws a dr).2
      cfg.fault_id := by
    rw [heq]
    refine ⟨?_, ?_⟩
    · simpa [conflictResolvedAt, lookup_updateAssoc] using hcc.2.1
    · simpa [conflictResolvedAt, lookup_updateAssoc] using hcc.2.2
  exact ⟨hfirst, hresolved,
    (injectorRun_none_of_resolved cfg.step_idx task_id cfg.fault_id calls _
      hresolved hcalls).1⟩

/-- C3 witness: the concrete activated conflict fault is cleared by a
rollback observation and stays silent over two further calls. -/
theorem C3_witness :
    (shouldInject (some cfgConflictStateful) 2 "T-002" wsConflictActive 1
        true).1 = none
    ∧ conflictResolvedAt
        (shouldInject (some cfgConflictStateful) 2 "T-002" wsConflictActive 1
          true).2 "F-C1"
    ∧ (injectorRun 2 "T-002"
        (shouldInject (some cfgConflictStateful) 2 "T-002" wsConflictActive 1
          true).2 callsConflictCE).2.getD 0 (some dummyDesc) = none
    ∧ (injectorRun 2 "T-002"
        (shouldInject (some cfgConflictStateful) 2 "T-002" wsConflictActive 1
          true).2 callsConflictCE).2.getD 1 (some dummyDesc) = none := by
  have h := C3_theorem cfgConflictStateful "T-002" wsConflictActive 1 true
    callsConflictCE rfl (by decide) (by decide) (by decide) (by decide)
  exact ⟨h.1, h.2.1, h.2.2 _ (by decide), h.2.2 _ (by decide)⟩

/-! ## C8 — unknown tool crashes the run -/

/-- C8 (counterexample): a task whose first step names an unregistered tool
does not terminate with a `failed` outcome — `run_task` propagates the
unknown-tool `ValueError` (modelled as `Except.error`), and `run` does not
catch it, so the whole run aborts. -/
theorem C8_counterexample :
    runTask "B2" (8/10) diagRetry drawNever taskUnknownTool none 10
      = .error "Unknown tool: fly_rocket"
    ∧ runAll "B2" (8/10) diagRetry drawNever [taskUnknownTool] none 10
      = .error "Unknown tool: fly_rocket" := by
  constructor <;> rfl

/-- C8 (amended): for every task whose first step names a tool missing from
the registry, `run_task` raises `ValueError("Unknown tool: …")` — it does
not produce a task result at all, so the task does not end with a
`failed` final outcome; the error propagates out of `run` and crashes
the whole run. -/
theorem C8_theorem (mode : String) (memory_threshold : ℚ)
    (diagOracle : StepContext → StepResult → List TraceEvent → Diagnosis)
    (drawOracle : String → Nat → Bool) (task : Task)
    (memory_bank : Option MemoryBankEntries) (fuel : Nat) (s : TaskStep)
    (hfuel : 0 < fuel) (hsteps : task.steps.head? = some s)
    (hunk : toolRegistryNames.contains s.tool_name = false) :
    runTask mode memory_threshold diagOracle drawOracle task memory_bank fuel
      = .error ("Unknown tool: " ++ s.tool_name) := by
  obtain ⟨n, rfl⟩ : ∃ n, fuel = n + 1 := ⟨fuel - 1, by omega⟩
  obtain ⟨rest, hrest⟩ : ∃ rest, task.steps = s :: rest := by
    cases h' : task.steps with
    | nil => rw [h'] at hsteps; exact absurd hsteps (by simp)
    | cons a l =>
      rw [h'] at hsteps
      simp at hsteps
      exact ⟨l, by rw [hsteps]⟩
  have hmem : s.tool_name ∉ toolRegistryNames := by simpa using hunk
  simp [runTask, runTaskLoop, hrest, hmem, executeStep, Budget.isExhausted]

/-- C8 witness: the amended theorem applied to the concrete unknown-tool
task. -/
theorem C8_witness :
    runTask "B0" (8/10) diagRetry drawNever taskUnknownTool none 3
      = .error "Unknown tool: fly_rocket" :=
  C8_theorem "B0" (8/10) diagRetry drawNever taskUnknownTool none 3
    { step_name := "launch", tool_name := "fly_rocket"
      params := ToolParams.get_record "REC1" }
    (by decide) rfl rfl

/-! ## C6 — query returns a maximal-scoring entry with clipped confidence -/

theorem queryStep_inv (sig : FaultSignature) (pre : MemoryBankEntries)
    (acc : QueryAcc) (p : String × MemoryEntry) (h : QueryInv sig pre acc) :
    QueryInv sig (pre ++ [p]) (queryStep sig acc p) := by
  unfold queryStep
  by_cases hgt : MemoryBank.similarity sig p.2.signature > acc.best_score
  · rw [if_pos hgt]
    right
    refine ⟨p.1, p.2, by simp, rfl, rfl, rfl, ?_⟩
    intro q hq
    rcases List.mem_append.mp hq with hq | hq
    · rcases h with ⟨hpre, _⟩ | ⟨k, e, _, _, _, _, hbound⟩
      · rw [hpre] at hq
        simp at hq
      · exact le_of_lt (lt_of_le_of_lt (hbound q hq) hgt)
    · simp only [List.mem_singleton] at hq
      subst hq
      exact le_refl _
  · rw [if_neg hgt]
    rcases h with ⟨hpre, hacc⟩ | ⟨k, e, hmem, hkey, hact, hscore, hbound⟩
    · exfalso
      rw [hacc] at hgt
      exact hgt (lt_of_lt_of_le (by norm_num)
        (similarity_nonneg sig p.2.signature))
    · right
      refine ⟨k, e, List.mem_append_left _ hmem, hkey, hact, hscore, ?_⟩
      intro q hq
      rcases List.mem_append.mp hq with hq | hq
      · exact hbound q hq
      · simp only [List.mem_singleton] at hq
        subst hq
        exact not_lt.mp hgt

theorem foldl_queryStep_inv (sig : FaultSignature) :
    ∀ (l : MemoryBankEntries) (pre : MemoryBankEntries) (acc : QueryAcc),
    QueryInv sig pre acc →
    QueryInv sig (pre ++ l) (l.foldl (queryStep sig) acc)
  | [], pre, acc, h => by simpa using h
  | p :: rest, pre, acc, h => by
    have h2 := foldl_queryStep_inv sig rest (pre ++ [p])
      (queryStep sig acc p) (queryStep_inv sig pre acc p h)
    simpa [List.append_assoc] using h2

/-- C6: for a non-empty memory bank (with the dict invariant of unique
keys), `query` returns the action of an entry whose similarity score is
maximal over the bank, with confidence `clip(0.7·score + 0.3·success_rate,
0, 1)` and the matched key; for the empty bank it returns no action with
confidence 0. -/
theorem C6_theorem (entries : MemoryBankEntries) (sig : FaultSignature)
    (hnd : (entries.map Prod.fst).Nodup) :
    (entries = [] → MemoryBank.query entries sig = (none, 0, none))
    ∧ (entries ≠ [] → ∃ k e, (k, e) ∈ entries
        ∧ (∀ p ∈ entries, MemoryBank.similarity sig p.2.signature
            ≤ MemoryBank.similarity sig e.signature)
        ∧ MemoryBank.query entries sig
          = (some e.action,
             max 0 (min 1 (MemoryBank.similarity sig e.signature * (7/10)
               + successRate e * (3/10))),
             some k)) := by
  constructor
  · intro he
    simp [MemoryBank.query, he]
  · intro hne
    have hinv := foldl_queryStep_inv sig entries [] ⟨none, -1, none⟩
      (Or.inl ⟨rfl, rfl⟩)
    simp only [List.nil_append] at hinv
    rcases hinv with ⟨hemp, _⟩ | ⟨k, e, hmem, hkey, hact, hscore, hbound⟩
    · exact absurd hemp hne
    · refine ⟨k, e, hmem, ?_, ?_⟩
      · intro q hq
        rw [← hscore]
        exact hbound q hq
      · simp only [MemoryBank.query]
        rw [if_neg hne]
        simp only [hkey, hact, hscore,
          lookup_of_mem_nodup entries k e hnd hmem, Option.getD_some]

/-- C6 witness: on the singleton example bank the query returns the stored
rollback action, the clipped confidence and the stored key. -/
theorem C6_witness :
    (MemoryBank.query bankExample sigExample).1 = some "rollback"
    ∧ (MemoryBank.query bankExample sigExample).2.1
      = max 0 (min 1
          (MemoryBank.similarity sigExample entryExample.signature * (7/10)
            + successRate entryExample * (3/10)))
    ∧ (MemoryBank.query bankExample sigExample).2.2
      = some (FaultSignature.to_key sigExample)
    ∧ MemoryBank.query ([] : MemoryBankEntries) sigExample
      = (none, 0, none) := by
  obtain ⟨k, e, hmem, hmax, heq⟩ :=
    (C6_theorem bankExample sigExample (by decide)).2 (by decide)
  have hke : (k, e) = (FaultSignature.to_key sigExample, entryExample) := by
    simpa [bankExample] using hmem
  obtain ⟨rfl, rfl⟩ := Prod.mk.injEq _ _ _ _ ▸ hke
  exact ⟨by simp [heq, entryExample], by simp [heq], by simp [heq],
    (C6_theorem [] sigExample (by decide)).1 rfl⟩

/-! ## C7 — the signature's hash prefix equals the pre-call hash prefix

The runner builds the failure signature from the *post*-call state hash
(`state_hash` at baselines.py line 152; the `state_hash_pre` binding at
line 135 is dead). The claim still holds extensionally: every registry
tool raises before mutating the hashed state, and injected faults skip
the tool body, so on a failing call the post-call hash equals the
pre-call hash. -/

set_option linter.unusedTactic false in
theorem runToolOp_error_frame (p : ToolParams) (ws : WorldState)
    (e : String) (h : (runToolOp p ws).2 = .error e) :
    (runToolOp p ws).1 = ws := by
  cases p <;> simp only [runToolOp] at h ⊢ <;>
    first
    | rfl
    | (simp_all
       done)
    | (split_ifs at h ⊢ <;> simp_all
       done)
    | (split at h <;> simp_all
       done)

theorem executeTool_error_frame (ws : WorldState) (p : ToolParams)
    (fi : Option FaultDescriptor)
    (h : (executeTool ws p fi).1.status = "error") :
    (executeTool ws p fi).2 = ws := by
  cases fi with
  | some f => rfl
  | none =>
    simp only [executeTool] at h ⊢
    rcases hr : (runToolOp p ws).2 with e | out
    · simp only [hr] at h ⊢
      exact runToolOp_error_frame p ws e hr
    · simp [hr] at h

theorem shouldInject_hash_frame (fc : Option FaultConfig) (step_idx : Nat)
    (task_id : String) (ws : WorldState) (a : Nat) (dr : Bool) :
    (shouldInject fc step_idx task_id ws a dr).2.records = ws.records
    ∧ (shouldInject fc step_idx task_id ws a dr).2.inventory = ws.inventory
    ∧ (shouldInject fc step_idx task_id ws a dr).2.audit_log
        = ws.audit_log := by
  rcases fc with _ | cfg
  · exact ⟨rfl, rfl, rfl⟩
  · simp only [shouldInject]
    split_ifs <;> simp_all

theorem compute_hash_congr (ws1 ws2 : WorldState)
    (h1 : ws1.records = ws2.records) (h2 : ws1.inventory = ws2.inventory)
    (h3 : ws1.audit_log = ws2.audit_log) :
    WorldState.compute_hash ws1 = WorldState.compute_hash ws2 := by
  unfold WorldState.compute_hash
  rw [h1, h2, h3]

theorem executeStep_error_frame (ws : WorldState) (name : String)
    (p : ToolParams) (fi : Option FaultDescriptor) (res : StepResult)
    (ws2 : WorldState) (h : executeStep ws name p fi = .ok (res, ws2))
    (herr : res.status = "error") : ws2 = ws := by
  unfold executeStep at h
  split_ifs at h
  · injection h with h'
    have hs : (executeTool ws p fi).1.status = "error" := by
      rw [h']
      exact herr
    have hf := executeTool_error_frame ws p fi hs
    rw [h'] at hf
    exact hf

/-- C7: for every failing step — any registry tool, any parameters, with or
without an injected fault — the fault signature the runner constructs
(from the post-call state hash, as `run_task` does) carries as its
state-hash-prefix the first 10 characters of the hash of the world state
*before* the call (before fault-injection bookkeeping and tool
execution): on failures the hashed state is never mutated. -/
theorem C7_theorem (ws0 : WorldState) (fc : Option FaultConfig)
    (step_idx : Nat) (task_id : String) (step_name : String)
    (tool_name : String) (attempt_idx : Nat) (draw : Bool)
    (params : ToolParams) (br : BudgetRemaining) (res : StepResult)
    (ws2 : WorldState)
    (hexec : executeStep
      (shouldInject fc step_idx task_id ws0 attempt_idx draw).2 tool_name
      params (shouldInject fc step_idx task_id ws0 attempt_idx draw).1
      = .ok (res, ws2))
    (herr : res.status = "error") :
    FaultSignature.state_hash_prefix
      (FaultSignature.from_failure
        { task_id := task_id, step_idx := step_idx, step_name := step_name
          tool_name := tool_name
          state_hash := WorldState.compute_hash ws2
          budget_remaining := br } res)
      = (WorldState.compute_hash ws0).take 10 := by
  have hinj := shouldInject_hash_frame fc step_idx task_id ws0 attempt_idx
    draw
  have hstep := executeStep_error_frame _ tool_name params _ res ws2 hexec
    herr
  have hh : WorldState.compute_hash ws2 = WorldState.compute_hash ws0 := by
    rw [hstep]
    exact compute_hash_congr _ _ hinj.1 hinj.2.1 hinj.2.2
  simp [FaultSignature.from_failure, hh]

/-- C7 witness: a concrete failing `get_record` on the empty world state. -/
theorem C7_witness :
    FaultSignature.state_hash_prefix
      (FaultSignature.from_failure
        { task_id := "T-W7", step_idx := 0, step_name := "fetch"
          tool_name := "get_record"
          state_hash := WorldState.compute_hash emptyWS
          budget_remaining := { tokens := 10000, tool_calls := 50 } }
        resultNotFoundCE)
      = (WorldState.compute_hash emptyWS).take 10 :=
  C7_theorem emptyWS none 0 "T-W7" "fetch" "get_record" 0 false
    (ToolParams.get_record "R404") { tokens := 10000, tool_calls := 50 }
    resultNotFoundCE emptyWS rfl rfl

end AWRR
